import Mathlib

/-!
Shallow embedding of the sentiment-analysis core of `src/app.py`
(Flask REST API for sentiment analysis backed by Hugging Face models).

Python strings are modelled as `List Char`.  The external collaborators —
the `emoji` library's grapheme table, `transformers.pipeline` model
loading, the loaded model's invocation, and wall-clock timing — are
parameters of the embedding (`EmojiMap`, `Loader`, `Invoke`,
`Env.elapsed`); everything else is translated from the source.
The process-wide `models_cache` dictionary is threaded explicitly as an
association list (`Cache`).
-/

/-- Characters matched by Python's `\s` (ASCII range), as used by the
`re.sub(r'\s+', ' ', text)` step and `str.split()` / `str.strip()`. -/
def pyWhitespace (c : Char) : Bool :=
  c = ' ' || c = '\t' || c = '\n' || c = '\r' || c = '\x0b' || c = '\x0c'

/-- The character class accepted after `http(s)://` by the URL regex of
`preprocess_text` (src/app.py line 92):
`[a-zA-Z]|[0-9]|[$-_@.&+]|[!*\\(\\),]|%[0-9a-fA-F]{2}` — note `$-_` is a
character *range* (0x24–0x5F) and `%` itself lies inside it, so the class
is: letters, digits, the range 0x24–0x5F, and `!`, `*`, `\`, `(`, `)`, `,`. -/
def urlChar (c : Char) : Bool :=
  c.isAlpha || c.isDigit || (0x24 ≤ c.toNat && c.toNat ≤ 0x5F) ||
    c = '!' || c = '*' || c = '\\' || c = '(' || c = ')' || c = ','

/-- After `http://` or `https://`, the regex greedily consumes one or more
`urlChar`s; with none the whole pattern fails at this position. -/
def urlTail (r : List Char) : Option (List Char) :=
  if (r.takeWhile urlChar).isEmpty then none else some (r.dropWhile urlChar)

/-- Try to match the URL regex at the head of `l`; `some r` returns the
rest of the input after the (greedy, leftmost) match. -/
def matchURL : List Char → Option (List Char)
  | 'h' :: 't' :: 't' :: 'p' :: 's' :: ':' :: '/' :: '/' :: r => urlTail r
  | 'h' :: 't' :: 't' :: 'p' :: ':' :: '/' :: '/' :: r => urlTail r
  | _ => none

/-- `re.sub(url_pattern, '', text)`: scan left to right, removing each
leftmost non-overlapping match.  The `fuel` argument only bounds the
recursion; a match always consumes at least seven characters, so
`fuel = l.length` (as `stripURLs` passes) never runs out. -/
def stripURLsFuel : Nat → List Char → List Char
  | 0, l => l
  | _ + 1, [] => []
  | fuel + 1, c :: rest =>
    match matchURL (c :: rest) with
    | some r => stripURLsFuel fuel r
    | none => c :: stripURLsFuel fuel rest

/-- Remove every URL-regex match from the text (src/app.py line 92). -/
def stripURLs (l : List Char) : List Char :=
  stripURLsFuel l.length l

/-- `re.sub(r'[@#]', '', text)` (src/app.py line 95). -/
def removeMentionHash (l : List Char) : List Char :=
  l.filter fun c => !(c = '@' || c = '#')

/-- `re.sub(r'\s+', ' ', text)`: each maximal run of whitespace becomes a
single space.  `afterWS` records whether the previous character belonged
to a run already collapsed. -/
def collapseWhitespace : Bool → List Char → List Char
  | _, [] => []
  | afterWS, c :: rest =>
    if pyWhitespace c then
      if afterWS then collapseWhitespace true rest
      else ' ' :: collapseWhitespace true rest
    else c :: collapseWhitespace false rest

/-- Python `str.strip()`: drop leading and trailing whitespace. -/
def pyStrip (l : List Char) : List Char :=
  ((l.dropWhile pyWhitespace).reverse.dropWhile pyWhitespace).reverse

/-- The `emoji` library's table, abstracted: `some name` when the
character is an emoji with textual description `name`, else `none`. -/
abbrev EmojiMap := Char → Option (List Char)

/-- `emoji.demojize(text, delimiters=(" ", " "))` (src/app.py line 89):
each emoji is replaced by a space-delimited textual description. -/
def demojize (emojiMap : EmojiMap) (l : List Char) : List Char :=
  l.flatMap fun c =>
    match emojiMap c with
    | some name => ' ' :: (name ++ [' '])
    | none => [c]

/-- `preprocess_text` (src/app.py lines 83–100): emoji expansion, URL
removal, `@`/`#` stripping, whitespace collapse and trim.  Python's
`if not text: return ""` only fires on the empty string. -/
def preprocess_text (emojiMap : EmojiMap) (text : List Char) : List Char :=
  if text.isEmpty then []
  else
    pyStrip (collapseWhitespace false
      (removeMentionHash (stripURLs (demojize emojiMap text))))

/-- `truncate_text` (src/app.py lines 102–104):
`text[:max_length] if len(text) > max_length else text`. -/
def truncate_text (text : List Char) (maxLength : Nat) : List Char :=
  if text.length > maxLength then text.take maxLength else text

/-- The exact text handed to the model by `analyze_sentiment`
(src/app.py lines 111–112): preprocessing followed by truncation to 512
characters. -/
def processed_input (emojiMap : EmojiMap) (text : List Char) : List Char :=
  truncate_text (preprocess_text emojiMap text) 512

/-- Python `str.upper()` (ASCII letters; model labels are ASCII). -/
def pyUpper (l : List Char) : List Char :=
  l.map Char.toUpper

/-- Python's `in` on strings: is `p` a contiguous substring of `l`? -/
def isSubstring (p : List Char) : List Char → Bool
  | [] => p.isEmpty
  | c :: rest => p.isPrefixOf (c :: rest) || isSubstring p rest

/-- The `'STAR' in sentiment` test of src/app.py line 136. -/
def containsStar (l : List Char) : Bool :=
  isSubstring "STAR".toList l

/-- Python `str.split()` with no separator: split on runs of whitespace,
dropping empty tokens.  `acc` holds the current token reversed. -/
def pySplitAux (acc : List Char) : List Char → List (List Char)
  | [] => if acc.isEmpty then [] else [acc.reverse]
  | c :: rest =>
    if pyWhitespace c then
      if acc.isEmpty then pySplitAux [] rest
      else acc.reverse :: pySplitAux [] rest
    else pySplitAux (c :: acc) rest

/-- Python `str.split()` with no separator. -/
def pySplit (l : List Char) : List (List Char) :=
  pySplitAux [] l

/-- Digits-only numeral to its value (decimal). -/
def parseNat (l : List Char) : Option Nat :=
  if l.isEmpty || !(l.all Char.isDigit) then none
  else some (l.foldl (fun acc c => 10 * acc + (c.toNat - 48)) 0)

/-- Python `int(token)` on a whitespace-free token: optional sign, then
decimal digits; anything else raises `ValueError`. -/
def pyInt? : List Char → Option Int
  | '-' :: rest => (parseNat rest).map fun n => -(n : Int)
  | '+' :: rest => (parseNat rest).map fun n => (n : Int)
  | l => (parseNat l).map fun n => (n : Int)

/-- Round a rational to the nearest integer, ties to even — Python 3's
`round`. -/
def roundHalfEven (q : ℚ) : ℤ :=
  let f := ⌊q⌋
  if q - f < 1 / 2 then f
  else if 1 / 2 < q - f then f + 1
  else if f % 2 = 0 then f else f + 1

/-- Python `round(q, ndigits)` on exact rationals. -/
def pyRound (ndigits : Nat) (q : ℚ) : ℚ :=
  (roundHalfEven (q * 10 ^ ndigits) : ℚ) / 10 ^ ndigits

/-- Label normalization of src/app.py lines 134–144, extracted from the
`try` block of `analyze_sentiment`: uppercase the raw label; a label
containing `STAR` is parsed as `<N> star(s)` and mapped
N≤2 → NEGATIVE, N=3 → NEUTRAL, otherwise POSITIVE; any other label
passes through uppercased.  `int(sentiment.split()[0])` raises
`ValueError` (or `IndexError`) on a malformed star label; these
exceptions are the `.error` results, caught by the enclosing `except`. -/
def normalize_label (label : List Char) : Except (List Char) (List Char) :=
  let sentiment := pyUpper label
  if containsStar sentiment then
    match pySplit sentiment with
    | [] => .error "IndexError: list index out of range".toList
    | tok :: _ =>
      match pyInt? tok with
      | none => .error ("invalid literal for int() with base 10".toList)
      | some stars =>
        .ok (if stars ≤ 2 then "NEGATIVE".toList
             else if stars = 3 then "NEUTRAL".toList
             else "POSITIVE".toList)
  else .ok sentiment

/-- The result dictionary of `analyze_sentiment`: the Python dict holds a
key or not, so every field but the always-present original text is an
`Option`. -/
structure AnalysisResult where
  text : List Char
  processed_text : Option (List Char)
  sentiment : Option (List Char)
  confidence : Option ℚ
  language : Option (List Char)
  processing_time_seconds : Option ℚ
  error : Option (List Char)
  deriving DecidableEq

/-- `transformers.pipeline("sentiment-analysis", model=model_name, ...)`
(src/app.py lines 71–76), abstracted: the loader receives the resolved
model identifier and either produces a handle of type `M` or fails
(`except` branch). -/
abbrev Loader (M : Type) := List Char → Option M

/-- `model(processed_text)[0]` (src/app.py line 132), abstracted: invoking
a model handle on a text either raises an exception with a message
(`Except.error`) or yields the single raw `(label, score)` pair. -/
abbrev Invoke (M : Type) := M → List Char → Except (List Char) (List Char × ℚ)

/-- The process-wide `models_cache` dict (src/app.py line 24), keyed by
language tag.  Dictionary update on a missing key is modelled by
prepending, which `List.lookup` reads back first. -/
abbrev Cache (M : Type) := List (List Char × M)

/-- The external collaborators `analyze_sentiment` closes over: the model
loader, model invocation, the emoji table, and the wall-clock time
elapsed between `start_time` and the end of the call. -/
structure Env (M : Type) where
  loader : Loader M
  invoke : Invoke M
  emojiMap : EmojiMap
  elapsed : ℚ

/-- The `model_map` table of `load_model` (src/app.py lines 60–66). -/
def model_map : List (List Char × List Char) :=
  [("en".toList, "distilbert-base-uncased-finetuned-sst-2-english".toList),
   ("multilingual".toList, "nlptown/bert-base-multilingual-uncased-sentiment".toList),
   ("es".toList, "nlptown/bert-base-multilingual-uncased-sentiment".toList),
   ("fr".toList, "nlptown/bert-base-multilingual-uncased-sentiment".toList),
   ("de".toList, "nlptown/bert-base-multilingual-uncased-sentiment".toList)]

/-- `model_map.get(language, model_map['multilingual'])`
(src/app.py line 68); the default is the multilingual identifier. -/
def resolve_model (language : List Char) : List Char :=
  (model_map.lookup language).getD
    "nlptown/bert-base-multilingual-uncased-sentiment".toList

/-- `load_model` (src/app.py lines 54–81): return the cached handle if
present; otherwise resolve the model identifier and load.  On success the
handle is cached under the language tag; on failure (`except` branch,
returning `None`) the cache is untouched. -/
def load_model {M : Type} (loader : Loader M) (cache : Cache M)
    (language : List Char) : Option M × Cache M :=
  match cache.lookup language with
  | some m => (some m, cache)
  | none =>
    match loader (resolve_model language) with
    | some m => (some m, (language, m) :: cache)
    | none => (none, cache)

/-- `analyze_sentiment` (src/app.py lines 106–160): preprocess and
truncate; empty text gives the soft-error result; a failed model load
gives the `Model loading failed` result; otherwise invoke the model and
normalize its label, with any exception from the `try` block caught and
returned as the two-field error result. -/
def analyze_sentiment {M : Type} (env : Env M) (cache : Cache M)
    (text language : List Char) : AnalysisResult × Cache M :=
  let processed_text := processed_input env.emojiMap text
  if processed_text.isEmpty then
    ({ text := text, processed_text := none,
       sentiment := some "NEUTRAL".toList, confidence := some 0,
       language := none, processing_time_seconds := none,
       error := some "Empty text after preprocessing".toList }, cache)
  else
    match load_model env.loader cache language with
    | (none, cache1) =>
      ({ text := text, processed_text := none, sentiment := none,
         confidence := none, language := none,
         processing_time_seconds := none,
         error := some "Model loading failed".toList }, cache1)
    | (some model, cache1) =>
      match env.invoke model processed_text with
      | .error e =>
        ({ text := text, processed_text := none, sentiment := none,
           confidence := none, language := none,
           processing_time_seconds := none, error := some e }, cache1)
      | .ok (label, score) =>
        match normalize_label label with
        | .error e =>
          ({ text := text, processed_text := none, sentiment := none,
             confidence := none, language := none,
             processing_time_seconds := none, error := some e }, cache1)
        | .ok sentiment =>
          ({ text := text, processed_text := some processed_text,
             sentiment := some sentiment,
             confidence := some (pyRound 4 score),
             language := some language,
             processing_time_seconds := some (pyRound 3 env.elapsed),
             error := none }, cache1)

/-- The result-collecting loop of `batch_analyze` (src/app.py
lines 226–229), threading the model cache through the items in input
order. -/
def batch_results {M : Type} (env : Env M) (cache : Cache M)
    (texts : List (List Char)) (language : List Char) :
    List AnalysisResult × Cache M :=
  match texts with
  | [] => ([], cache)
  | t :: ts =>
    let step := analyze_sentiment env cache t language
    let rest := batch_results env step.2 ts language
    (step.1 :: rest.1, rest.2)

/-- The `statistics` dict of `batch_analyze` (src/app.py lines 234–248):
`sentiment_distribution` (counts of POSITIVE, NEGATIVE, NEUTRAL among
successful items) is present only when `successful` is nonempty. -/
structure BatchStats where
  total : Nat
  successful : Nat
  failed : Nat
  sentiment_distribution : Option (Nat × Nat × Nat)
  deriving DecidableEq

/-- Statistics computation of `batch_analyze` (src/app.py lines 234–248):
`successful` are the results without an `error` key. -/
def batch_statistics (texts : List (List Char))
    (results : List AnalysisResult) : BatchStats :=
  let successful := results.filter fun r => r.error = none
  { total := texts.length,
    successful := successful.length,
    failed := texts.length - successful.length,
    sentiment_distribution :=
      if successful.isEmpty then none
      else
        let sentiments := successful.map fun r => r.sentiment
        some (sentiments.count (some "POSITIVE".toList),
              sentiments.count (some "NEGATIVE".toList),
              sentiments.count (some "NEUTRAL".toList)) }

/-- `batch_analyze` (src/app.py lines 209–253) past the boundary
validation: per-item results in input order plus the batch statistics. -/
def batch_analyze {M : Type} (env : Env M) (cache : Cache M)
    (texts : List (List Char)) (language : List Char) :
    List AnalysisResult × BatchStats × Cache M :=
  let out := batch_results env cache texts language
  (out.1, batch_statistics texts out.1, out.2)

/-- A concrete environment over unit handles: loads always succeed and
the model always answers POSITIVE with score 1. -/
def unitEnv : Env Unit :=
  { loader := fun _ => some (), invoke := fun _ _ => .ok ("POSITIVE".toList, 1),
    emojiMap := fun _ => none, elapsed := 0 }

/-- A concrete environment whose model invocation always raises. -/
def boomEnv : Env Unit :=
  { loader := fun _ => some (), invoke := fun _ _ => .error "boom".toList,
    emojiMap := fun _ => none, elapsed := 0 }

/-- A one-entry emoji table: U+1F60A ↦ `smiling_face_with_smiling_eyes`. -/
def sampleEmojiMap : EmojiMap := fun c =>
  if c = Char.ofNat 0x1F60A then some "smiling_face_with_smiling_eyes".toList
  else none

/-- A concrete environment whose emoji table is `sampleEmojiMap`. -/
def emojiEnv : Env Unit :=
  { loader := fun _ => some (), invoke := fun _ _ => .ok ("POSITIVE".toList, 9 / 10),
    emojiMap := sampleEmojiMap, elapsed := 0 }

theorem analyze_invoke_error_eq {M : Type} (env : Env M) (cache : Cache M)
    (text language : List Char) (m : M) (c1 : Cache M) (e : List Char)
    (hne : (processed_input env.emojiMap text).isEmpty = false)
    (hload : load_model env.loader cache language = (some m, c1))
    (hinv : env.invoke m (processed_input env.emojiMap text) = .error e) :
    analyze_sentiment env cache text language =
      ({ text := text, processed_text := none, sentiment := none,
         confidence := none, language := none,
         processing_time_seconds := none, error := some e }, c1) := by
  simp only [analyze_sentiment, hne, hload, hinv, Bool.false_eq_true, if_false]

/-- C1 fails on the empty-after-preprocessing branch (src/app.py
lines 114–120): the result of analyzing the empty text populates
`sentiment`, `confidence` AND `error` at once, so it is not the case that
exactly one of the two groups is populated. -/
theorem c1_counterexample :
    ((analyze_sentiment unitEnv ([] : Cache Unit) [] "en".toList).1.sentiment).isSome = true ∧
    ((analyze_sentiment unitEnv ([] : Cache Unit) [] "en".toList).1.confidence).isSome = true ∧
    ((analyze_sentiment unitEnv ([] : Cache Unit) [] "en".toList).1.error).isSome = true :=
  ⟨rfl, rfl, rfl⟩

/-- C1 (amended): every `AnalysisResult` returned by `analyze_sentiment`
either populates sentiment and confidence with no error (success),
populates the error with no sentiment and no confidence (hard error), or
is the empty-after-preprocessing soft-error result, which populates
sentiment=NEUTRAL, confidence=0.0 and the error together. -/
theorem c1_result_population {M : Type} (env : Env M) (cache : Cache M)
    (text language : List Char) (r : AnalysisResult) (c1 : Cache M)
    (h : analyze_sentiment env cache text language = (r, c1)) :
    (r.error = none ∧ r.sentiment.isSome = true ∧ r.confidence.isSome = true) ∨
    (r.error.isSome = true ∧ r.sentiment = none ∧ r.confidence = none) ∨
    (r.error = some "Empty text after preprocessing".toList ∧
      r.sentiment = some "NEUTRAL".toList ∧ r.confidence = some 0) := by
  revert h
  simp only [analyze_sentiment]
  split
  · intro h
    injection h with h1 h2
    subst h1
    exact Or.inr (Or.inr ⟨rfl, rfl, rfl⟩)
  · split
    · intro h
      injection h with h1 h2
      subst h1
      exact Or.inr (Or.inl ⟨rfl, rfl, rfl⟩)
    · split
      · intro h
        injection h with h1 h2
        subst h1
        exact Or.inr (Or.inl ⟨rfl, rfl, rfl⟩)
      · split
        · intro h
          injection h with h1 h2
          subst h1
          exact Or.inr (Or.inl ⟨rfl, rfl, rfl⟩)
        · intro h
          injection h with h1 h2
          subst h1
          exact Or.inl ⟨rfl, rfl, rfl⟩

/-- C1 witness: the amended partition evaluated at the empty input, which
lands in the soft-error disjunct. -/
theorem c1_witness :
    ((analyze_sentiment unitEnv ([] : Cache Unit) [] "en".toList).1.error = none ∧
      ((analyze_sentiment unitEnv ([] : Cache Unit) [] "en".toList).1.sentiment).isSome = true ∧
      ((analyze_sentiment unitEnv ([] : Cache Unit) [] "en".toList).1.confidence).isSome = true) ∨
    (((analyze_sentiment unitEnv ([] : Cache Unit) [] "en".toList).1.error).isSome = true ∧
      (analyze_sentiment unitEnv ([] : Cache Unit) [] "en".toList).1.sentiment = none ∧
      (analyze_sentiment unitEnv ([] : Cache Unit) [] "en".toList).1.confidence = none) ∨
    ((analyze_sentiment unitEnv ([] : Cache Unit) [] "en".toList).1.error =
        some "Empty text after preprocessing".toList ∧
      (analyze_sentiment unitEnv ([] : Cache Unit) [] "en".toList).1.sentiment =
        some "NEUTRAL".toList ∧
      (analyze_sentiment unitEnv ([] : Cache Unit) [] "en".toList).1.confidence = some 0) :=
  c1_result_population unitEnv [] [] "en".toList
    (analyze_sentiment unitEnv [] [] "en".toList).1
    (analyze_sentiment unitEnv [] [] "en".toList).2 rfl

theorem matchURL_ne_h {c : Char} (rest : List Char) (h : c ≠ 'h') :
    matchURL (c :: rest) = none := by
  unfold matchURL
  split
  · rename_i heq
    injection heq with h1 _
    exact absurd h1 h
  · rename_i heq
    injection heq with h1 _
    exact absurd h1 h
  · rfl

theorem stripURLsFuel_all_ws (fuel : Nat) (l : List Char)
    (h : ∀ c ∈ l, pyWhitespace c = true) : stripURLsFuel fuel l = l := by
  induction fuel generalizing l with
  | zero => rfl
  | succ fuel ih =>
    match l with
    | [] => rfl
    | c :: rest =>
      have hc : c ≠ 'h' := by
        intro hch
        have := h c (by simp)
        rw [hch] at this
        simp [pyWhitespace] at this
      rw [stripURLsFuel, matchURL_ne_h rest hc]
      rw [ih rest fun x hx => h x (List.mem_cons_of_mem _ hx)]

theorem collapseWhitespace_true_all_ws (l : List Char)
    (h : ∀ c ∈ l, pyWhitespace c = true) : collapseWhitespace true l = [] := by
  induction l with
  | nil => rfl
  | cons c rest ih =>
    rw [collapseWhitespace, if_pos (h c (by simp)), if_pos rfl]
    exact ih fun x hx => h x (List.mem_cons_of_mem _ hx)

/-- Whitespace-only text reduces to the empty string under the collapse
and strip steps of `preprocess_text`. -/
theorem pyStrip_collapse_all_ws (l : List Char)
    (h : ∀ c ∈ l, pyWhitespace c = true) :
    pyStrip (collapseWhitespace false l) = [] := by
  match l with
  | [] => rfl
  | c :: rest =>
    rw [collapseWhitespace, if_pos (h c (by simp)),
      collapseWhitespace_true_all_ws rest fun x hx => h x (List.mem_cons_of_mem _ hx)]
    rfl

theorem removeMentionHash_all_ws (l : List Char)
    (h : ∀ c ∈ l, pyWhitespace c = true) : removeMentionHash l = l := by
  rw [removeMentionHash, List.filter_eq_self]
  intro c hc
  have hw := h c hc
  simp only [Bool.not_eq_true']
  cases hat : decide (c = '@') with
  | true =>
    simp at hat
    rw [hat] at hw
    simp [pyWhitespace] at hw
  | false =>
    cases hhash : decide (c = '#') with
    | true =>
      simp at hhash
      rw [hhash] at hw
      simp [pyWhitespace] at hw
    | false =>
      simp at hat hhash
      simp [hat, hhash]

theorem demojize_none (emojiMap : EmojiMap) (l : List Char)
    (h : ∀ c ∈ l, emojiMap c = none) : demojize emojiMap l = l := by
  induction l with
  | nil => rfl
  | cons c rest ih =>
    rw [demojize, List.flatMap_cons, h c (by simp)]
    have := ih fun x hx => h x (List.mem_cons_of_mem _ hx)
    rw [demojize] at this
    rw [this]
    rfl

/-- C3 fails for emoji-only text: `preprocess_text` *expands* an emoji to
its space-delimited textual description rather than erasing it
(src/app.py line 89), so an input consisting only of the emoji U+1F60A
normalizes to the nonempty string `smiling_face_with_smiling_eyes` and
`analyze_sentiment` proceeds to the model instead of returning the
`Empty text after preprocessing` soft error. -/
theorem c3_counterexample :
    preprocess_text sampleEmojiMap [Char.ofNat 0x1F60A] =
      "smiling_face_with_smiling_eyes".toList ∧
    (analyze_sentiment emojiEnv ([] : Cache Unit)
      [Char.ofNat 0x1F60A] "en".toList).1.error = none ∧
    (analyze_sentiment emojiEnv ([] : Cache Unit)
      [Char.ofNat 0x1F60A] "en".toList).1.sentiment = some "POSITIVE".toList :=
  ⟨rfl, rfl, rfl⟩

/-- C3 (amended): for every input whose normalization yields the empty
string — including the empty input and text consisting only of
URLs/whitespace (emoji-only text instead normalizes to the emoji's
textual description) — `analyze_sentiment` returns sentiment=NEUTRAL,
confidence=0.0, error=`Empty text after preprocessing` as a soft error,
for every loader and model (so without invoking either) and with the
cache untouched; moreover the empty input and whitespace-only text do
normalize to the empty string. -/
theorem c3_empty_preprocess {M : Type} (env : Env M) (cache : Cache M)
    (text language : List Char) :
    (preprocess_text env.emojiMap text = [] →
      analyze_sentiment env cache text language =
        ({ text := text, processed_text := none,
           sentiment := some "NEUTRAL".toList, confidence := some 0,
           language := none, processing_time_seconds := none,
           error := some "Empty text after preprocessing".toList }, cache)) ∧
    preprocess_text env.emojiMap [] = [] ∧
    ((∀ c ∈ text, pyWhitespace c = true ∧ env.emojiMap c = none) →
      preprocess_text env.emojiMap text = []) := by
  refine ⟨?_, rfl, ?_⟩
  · intro h
    have hp : processed_input env.emojiMap text = [] := by
      rw [processed_input, h]
      rfl
    simp only [analyze_sentiment, hp, List.isEmpty_nil, if_true]
  · intro hws
    by_cases htext : text.isEmpty
    · rw [preprocess_text, if_pos htext]
    · rw [preprocess_text, if_neg htext,
        demojize_none _ _ fun c hc => (hws c hc).2,
        stripURLs, stripURLsFuel_all_ws _ _ fun c hc => (hws c hc).1,
        removeMentionHash_all_ws _ fun c hc => (hws c hc).1]
      exact pyStrip_collapse_all_ws _ fun c hc => (hws c hc).1

/-- C3 witness: whitespace-only input normalizes to the empty string and
analyzing it yields the soft-error result with the cache unchanged. -/
theorem c3_witness :
    analyze_sentiment unitEnv ([] : Cache Unit) "   ".toList "en".toList =
      ({ text := "   ".toList, processed_text := none,
         sentiment := some "NEUTRAL".toList, confidence := some 0,
         language := none, processing_time_seconds := none,
         error := some "Empty text after preprocessing".toList }, []) ∧
    preprocess_text unitEnv.emojiMap "   ".toList = [] :=
  ⟨(c3_empty_preprocess unitEnv [] "   ".toList "en".toList).1 (by decide),
   (c3_empty_preprocess unitEnv [] "   ".toList "en".toList).2.2 (by decide)⟩

/-- C10: when the model invocation itself raises, `analyze_sentiment`
returns a result holding exactly the unchanged original text and the
exception message as the error, with the processed text, sentiment,
confidence, language and processing time all absent (src/app.py
lines 156–160). -/
theorem c10_exception_result {M : Type} (env : Env M) (cache : Cache M)
    (text language : List Char) (m : M) (c1 : Cache M) (e : List Char)
    (hne : (processed_input env.emojiMap text).isEmpty = false)
    (hload : load_model env.loader cache language = (some m, c1))
    (hinv : env.invoke m (processed_input env.emojiMap text) = .error e) :
    (analyze_sentiment env cache text language).1 =
      { text := text, processed_text := none, sentiment := none,
        confidence := none, language := none,
        processing_time_seconds := none, error := some e } := by
  rw [analyze_invoke_error_eq env cache text language m c1 e hne hload hinv]

/-- C10 witness: a concrete model that always raises `boom` yields the
two-field result for the input `hi`. -/
theorem c10_witness :
    (analyze_sentiment boomEnv ([] : Cache Unit) "hi".toList "en".toList).1 =
      { text := "hi".toList, processed_text := none, sentiment := none,
        confidence := none, language := none,
        processing_time_seconds := none, error := some "boom".toList } :=
  c10_exception_result boomEnv [] "hi".toList "en".toList ()
    [("en".toList, ())] "boom".toList rfl rfl rfl

/-- C7: a failed model load is not cached — `load_model` leaves the cache
unchanged, so a retry with a working loader consults the loader and
succeeds — and `analyze_sentiment` then returns a result whose error is
`Model loading failed` with no sentiment and no confidence (src/app.py
lines 70–81 and 122–128). -/
theorem c7_load_not_cached {M : Type} (env : Env M) (cache : Cache M)
    (text language : List Char)
    (hmiss : cache.lookup language = none)
    (hfail : env.loader (resolve_model language) = none)
    (hne : (processed_input env.emojiMap text).isEmpty = false) :
    load_model env.loader cache language = (none, cache) ∧
    (∀ (loader2 : Loader M) (m : M), loader2 (resolve_model language) = some m →
      load_model loader2 cache language = (some m, (language, m) :: cache)) ∧
    analyze_sentiment env cache text language =
      ({ text := text, processed_text := none, sentiment := none,
         confidence := none, language := none,
         processing_time_seconds := none,
         error := some "Model loading failed".toList }, cache) := by
  have h1 : load_model env.loader cache language = (none, cache) := by
    rw [load_model, hmiss, hfail]
  refine ⟨h1, ?_, ?_⟩
  · intro loader2 m h2
    rw [load_model, hmiss, h2]
  · simp only [analyze_sentiment, hne, h1, Bool.false_eq_true, if_false]

/-- C7 witness: a loader that always fails, on the empty cache and the
input `hi` with language `en`, then a retry with a working loader. -/
theorem c7_witness :
    load_model (fun _ => none) ([] : Cache Unit) "en".toList = (none, []) ∧
    load_model (fun _ => some ()) ([] : Cache Unit) "en".toList =
      (some (), [("en".toList, ())]) ∧
    analyze_sentiment
      { loader := fun _ => none, invoke := fun _ _ => .ok ("POSITIVE".toList, 1),
        emojiMap := fun _ => none, elapsed := 0 }
      ([] : Cache Unit) "hi".toList "en".toList =
      ({ text := "hi".toList, processed_text := none, sentiment := none,
         confidence := none, language := none,
         processing_time_seconds := none,
         error := some "Model loading failed".toList }, []) := by
  have h := c7_load_not_cached
    (M := Unit)
    { loader := fun _ => none, invoke := fun _ _ => .ok ("POSITIVE".toList, 1),
      emojiMap := fun _ => none, elapsed := 0 }
    [] "hi".toList "en".toList rfl rfl rfl
  exact ⟨h.1, h.2.1 (fun _ => some ()) () rfl, h.2.2⟩

/-- C8: after a successful load, the handle is cached — a second
`load_model` call for the same tag returns the same handle and leaves
the cache unchanged, whatever loader it is given (so no new load is
performed) (src/app.py lines 54–78). -/
theorem c8_idempotent_load {M : Type} (loader : Loader M) (cache : Cache M)
    (language : List Char) (m : M) (cache1 : Cache M)
    (h : load_model loader cache language = (some m, cache1)) :
    ∀ loader2 : Loader M, load_model loader2 cache1 language = (some m, cache1) := by
  have hl : cache1.lookup language = some m := by
    revert h
    rw [load_model]
    cases hc : cache.lookup language with
    | some m0 =>
      intro h
      injection h with h1 h2
      injection h1 with h1
      subst h1
      subst h2
      exact hc
    | none =>
      cases hld : loader (resolve_model language) with
      | some m1 =>
        intro h
        injection h with h1 h2
        injection h1 with h1
        subst h1
        subst h2
        simp [List.lookup]
      | none =>
        intro h
        injection h with h1 _
        exact absurd h1 (by simp)
  intro loader2
  rw [load_model, hl]

/-- C8 witness: a first load over natural-number handles caches handle 7
for `en`; the second call returns it even under a loader that would
produce 8, and the cache is unchanged. -/
theorem c8_witness :
    load_model (fun _ => some 8) [("en".toList, 7)] "en".toList =
      (some 7, [("en".toList, 7)]) :=
  c8_idempotent_load (fun _ => some 7) [] "en".toList 7
    [("en".toList, 7)] rfl (fun _ => some 8)

/-- C6: model selection resolves `en` to the English-only binary
classifier, and every other tag — `es`, `fr`, `de`, `multilingual` or
unrecognized — to the multilingual star-rating classifier, the declared
fallback (src/app.py lines 59–68). -/
theorem c6_model_selection (language : List Char) (h : language ≠ "en".toList) :
    resolve_model "en".toList =
      "distilbert-base-uncased-finetuned-sst-2-english".toList ∧
    resolve_model language =
      "nlptown/bert-base-multilingual-uncased-sentiment".toList := by
  refine ⟨rfl, ?_⟩
  rcases eq_or_ne language "multilingual".toList with rfl | h1
  · rfl
  rcases eq_or_ne language "es".toList with rfl | h2
  · rfl
  rcases eq_or_ne language "fr".toList with rfl | h3
  · rfl
  rcases eq_or_ne language "de".toList with rfl | h4
  · rfl
  have f : ∀ k : List Char, language ≠ k → (language == k) = false := by
    intro k hk
    cases hbe : language == k with
    | false => rfl
    | true => exact absurd (eq_of_beq hbe) hk
  simp [resolve_model, model_map, List.lookup,
    f (['e', 'n'] : List Char) h,
    f (['m', 'u', 'l', 't', 'i', 'l', 'i', 'n', 'g', 'u', 'a', 'l'] : List Char) h1,
    f (['e', 's'] : List Char) h2,
    f (['f', 'r'] : List Char) h3,
    f (['d', 'e'] : List Char) h4]

/-- C6 witness: the unrecognized tag `xx` falls back to the multilingual
model, and `en` resolves to the English binary model. -/
theorem c6_witness :
    resolve_model "en".toList =
      "distilbert-base-uncased-finetuned-sst-2-english".toList ∧
    resolve_model "xx".toList =
      "nlptown/bert-base-multilingual-uncased-sentiment".toList :=
  c6_model_selection "xx".toList (by decide)

/-- C9: the text handed to the model is always at most 512 characters —
normalization ends with truncation to 512 (src/app.py lines 102–112) —
and `analyze_sentiment` consults the model only on that truncated text:
two environments whose invocations agree on `processed_input` (and agree
elsewhere) produce identical results. -/
theorem c9_truncation_bound {M : Type} (env : Env M) (cache : Cache M)
    (text language : List Char) :
    (processed_input env.emojiMap text).length ≤ 512 ∧
    (∀ env2 : Env M, env2.loader = env.loader → env2.emojiMap = env.emojiMap →
      env2.elapsed = env.elapsed →
      (∀ m : M, env2.invoke m (processed_input env.emojiMap text) =
        env.invoke m (processed_input env.emojiMap text)) →
      analyze_sentiment env2 cache text language =
        analyze_sentiment env cache text language) := by
  constructor
  · rw [processed_input, truncate_text]
    split_ifs with h
    · simp
    · omega
  · intro env2 hl he ht hinv
    simp only [analyze_sentiment, hl, he, ht]
    by_cases hcond : (processed_input env.emojiMap text).isEmpty
    · simp [hcond]
    · simp only [Bool.not_eq_true] at hcond
      simp only [hcond, Bool.false_eq_true, if_false]
      rcases hlm : load_model env.loader cache language with ⟨o, c1⟩
      cases o with
      | none => rfl
      | some m => simp [hinv]

/-- C9 witness: the truncation bound at a concrete input, and invariance
for the trivially agreeing pair of identical environments. -/
theorem c9_witness :
    (processed_input unitEnv.emojiMap "hello".toList).length ≤ 512 ∧
    analyze_sentiment unitEnv ([] : Cache Unit) "hello".toList "en".toList =
      analyze_sentiment unitEnv ([] : Cache Unit) "hello".toList "en".toList :=
  ⟨(c9_truncation_bound unitEnv [] "hello".toList "en".toList).1,
   (c9_truncation_bound unitEnv [] "hello".toList "en".toList).2 unitEnv
     rfl rfl rfl (fun _ => rfl)⟩

/-- The uppercased star-rating label `<N> STAR` / `<N> STARS` for a
single-digit N, as the multilingual model emits (after `upper()`). -/
def starLabel (n : Nat) (plural : Bool) : List Char :=
  Char.ofNat (48 + n) :: (if plural then " STARS".toList else " STAR".toList)

/-- C4: binary labels POSITIVE/NEGATIVE pass through case-insensitively,
uppercased on output; star labels `<N> star(s)` map N∈{1,2} to NEGATIVE,
N=3 to NEUTRAL, N∈{4,5} to POSITIVE; and the reported confidence is the
raw score rounded to 4 decimal places while the sentiment is the
normalized label (src/app.py lines 134–145). -/
theorem c4_label_normalization {M : Type} (env : Env M) (cache : Cache M)
    (label text language : List Char) (score : ℚ) (plural : Bool) :
    ((pyUpper label = "POSITIVE".toList ∨ pyUpper label = "NEGATIVE".toList) →
      normalize_label label = .ok (pyUpper label)) ∧
    ((pyUpper label = starLabel 1 plural ∨ pyUpper label = starLabel 2 plural) →
      normalize_label label = .ok "NEGATIVE".toList) ∧
    (pyUpper label = starLabel 3 plural →
      normalize_label label = .ok "NEUTRAL".toList) ∧
    ((pyUpper label = starLabel 4 plural ∨ pyUpper label = starLabel 5 plural) →
      normalize_label label = .ok "POSITIVE".toList) ∧
    (∀ (m : M) (c1 : Cache M) (s : List Char),
      (processed_input env.emojiMap text).isEmpty = false →
      load_model env.loader cache language = (some m, c1) →
      env.invoke m (processed_input env.emojiMap text) = .ok (label, score) →
      normalize_label label = .ok s →
      (analyze_sentiment env cache text language).1.sentiment = some s ∧
      (analyze_sentiment env cache text language).1.confidence =
        some (pyRound 4 score)) := by
  refine ⟨?_, ?_, ?_, ?_, ?_⟩
  · rintro (h | h) <;> simp only [normalize_label, h] <;> rfl
  · rintro (h | h) <;> cases plural <;> simp only [normalize_label, h] <;> rfl
  · intro h
    cases plural <;> simp only [normalize_label, h] <;> rfl
  · rintro (h | h) <;> cases plural <;> simp only [normalize_label, h] <;> rfl
  · intro m c1 s hne hload hinv hnorm
    simp only [analyze_sentiment, hne, hload, hinv, hnorm,
      Bool.false_eq_true, if_false]
    constructor <;> trivial

/-- An environment whose model always answers `2 stars` with score
87/100. -/
def starEnv : Env Unit :=
  { loader := fun _ => some (),
    invoke := fun _ _ => .ok ("2 stars".toList, 87 / 100),
    emojiMap := fun _ => none, elapsed := 0 }

/-- C4 witness: the raw label `2 stars` normalizes to NEGATIVE and the
analysis of `ok` under `starEnv` reports that sentiment with the raw
score rounded to 4 decimals. -/
theorem c4_witness :
    normalize_label "2 stars".toList = .ok "NEGATIVE".toList ∧
    (analyze_sentiment starEnv ([] : Cache Unit) "ok".toList "es".toList).1.sentiment =
      some "NEGATIVE".toList ∧
    (analyze_sentiment starEnv ([] : Cache Unit) "ok".toList "es".toList).1.confidence =
      some (pyRound 4 (87 / 100)) := by
  have h := c4_label_normalization (M := Unit) starEnv [] "2 stars".toList
    "ok".toList "es".toList (87 / 100) true
  have hn : normalize_label "2 stars".toList = .ok "NEGATIVE".toList :=
    h.2.1 (Or.inr rfl)
  have hs := h.2.2.2.2 () [("es".toList, ())] "NEGATIVE".toList rfl rfl rfl hn
  exact ⟨hn, hs.1, hs.2⟩

/-- The two documented model-output schemas (binary POSITIVE/NEGATIVE and
1–5 star ratings): every label the model emits normalizes to one of the
three canonical sentiments. -/
def CanonicalInvoke {M : Type} (invoke : Invoke M) : Prop :=
  ∀ (m : M) (t label : List Char) (score : ℚ), invoke m t = .ok (label, score) →
    normalize_label label = .ok "POSITIVE".toList ∨
    normalize_label label = .ok "NEGATIVE".toList ∨
    normalize_label label = .ok "NEUTRAL".toList

theorem batch_results_length {M : Type} (env : Env M) (cache : Cache M)
    (texts : List (List Char)) (language : List Char) :
    (batch_results env cache texts language).1.length = texts.length := by
  induction texts generalizing cache with
  | nil => rfl
  | cons t ts ih => simp [batch_results, ih]

theorem analyze_success_canonical {M : Type} (env : Env M)
    (hc : CanonicalInvoke env.invoke) (cache : Cache M) (text language : List Char)
    (h : (analyze_sentiment env cache text language).1.error = none) :
    (analyze_sentiment env cache text language).1.sentiment = some "POSITIVE".toList ∨
    (analyze_sentiment env cache text language).1.sentiment = some "NEGATIVE".toList ∨
    (analyze_sentiment env cache text language).1.sentiment = some "NEUTRAL".toList := by
  cases hemp : (processed_input env.emojiMap text).isEmpty with
  | true => simp only [analyze_sentiment, hemp, if_true] at h; simp at h
  | false =>
    rcases hload : load_model env.loader cache language with ⟨o, c1⟩
    cases o with
    | none =>
      simp only [analyze_sentiment, hemp, Bool.false_eq_true, if_false, hload] at h
      simp at h
    | some m =>
      cases hinv : env.invoke m (processed_input env.emojiMap text) with
      | error e =>
        simp only [analyze_sentiment, hemp, Bool.false_eq_true, if_false,
          hload, hinv] at h
        simp at h
      | ok lp =>
        rcases lp with ⟨label, score⟩
        cases hnorm : normalize_label label with
        | error e =>
          simp only [analyze_sentiment, hemp, Bool.false_eq_true, if_false,
            hload, hinv, hnorm] at h
          simp at h
        | ok s =>
          simp only [analyze_sentiment, hemp, Bool.false_eq_true, if_false,
            hload, hinv, hnorm]
          have hcan := hc m (processed_input env.emojiMap text) label score hinv
          rcases hcan with hx | hx | hx <;> rw [hnorm] at hx <;>
            injection hx with hx <;> subst hx <;> simp

theorem batch_results_canonical {M : Type} (env : Env M)
    (hc : CanonicalInvoke env.invoke) (texts : List (List Char))
    (language : List Char) :
    ∀ (cache : Cache M) (r : AnalysisResult),
      r ∈ (batch_results env cache texts language).1 → r.error = none →
      r.sentiment = some "POSITIVE".toList ∨ r.sentiment = some "NEGATIVE".toList ∨
      r.sentiment = some "NEUTRAL".toList := by
  induction texts with
  | nil => intro cache r hr; simp [batch_results] at hr
  | cons t ts ih =>
    intro cache r hr herr
    simp only [batch_results, List.mem_cons] at hr
    rcases hr with rfl | hr2
    · exact analyze_success_canonical env hc cache t language herr
    · exact ih _ r hr2 herr

theorem count_three_partition {α : Type} [BEq α] [LawfulBEq α]
    (l : List α) (a b c : α) (hab : a ≠ b) (hac : a ≠ c) (hbc : b ≠ c)
    (h : ∀ x ∈ l, x = a ∨ x = b ∨ x = c) :
    l.count a + l.count b + l.count c = l.length := by
  induction l with
  | nil => simp
  | cons x xs ih =>
    have hxs := ih fun y hy => h y (List.mem_cons_of_mem _ hy)
    rcases h x (by simp) with rfl | rfl | rfl <;>
      simp [List.count_cons, beq_iff_eq, hab, hac, hbc,
        Ne.symm hab, Ne.symm hac, Ne.symm hbc] <;>
      omega

/-- C2: for every batch, the statistics satisfy
`successful + failed = total` with `total` the input count and
`successful` the count of results without an error; the values of
`sentiment_distribution` sum to `successful`; and the distribution is
omitted exactly when there are zero successful items (src/app.py
lines 234–248).  The models' outputs are assumed to follow the two
documented label schemas (`CanonicalInvoke`). -/
theorem c2_batch_statistics {M : Type} (env : Env M) (cache : Cache M)
    (texts : List (List Char)) (language : List Char)
    (hc : CanonicalInvoke env.invoke)
    (results : List AnalysisResult) (stats : BatchStats) (cache1 : Cache M)
    (h : batch_analyze env cache texts language = (results, stats, cache1)) :
    stats.total = texts.length ∧
    stats.successful = (results.filter fun r => r.error = none).length ∧
    stats.successful + stats.failed = stats.total ∧
    (∀ p n u : Nat, stats.sentiment_distribution = some (p, n, u) →
      p + n + u = stats.successful) ∧
    (stats.sentiment_distribution = none ↔ stats.successful = 0) := by
  simp only [batch_analyze] at h
  injection h with h1 h2
  injection h2 with h2 h3
  subst h1
  subst h2
  refine ⟨rfl, rfl, ?_, ?_, ?_⟩
  · have hlen : ((batch_results env cache texts language).1.filter
        fun r => r.error = none).length ≤ texts.length := by
      calc ((batch_results env cache texts language).1.filter
              fun r => r.error = none).length
          ≤ (batch_results env cache texts language).1.length :=
            List.length_filter_le _ _
        _ = texts.length := batch_results_length env cache texts language
    simp only [batch_statistics]
    omega
  · intro p n u hd
    simp only [batch_statistics] at hd ⊢
    by_cases he : ((batch_results env cache texts language).1.filter
        fun r => r.error = none).isEmpty
    · rw [if_pos he] at hd
      cases hd
    · rw [if_neg he] at hd
      injection hd with hd
      injection hd with hp hd
      injection hd with hn hu
      subst hp
      subst hn
      subst hu
      have hmem : ∀ x ∈ ((batch_results env cache texts language).1.filter
          fun r => r.error = none).map (fun r => r.sentiment),
          x = some "POSITIVE".toList ∨ x = some "NEGATIVE".toList ∨
          x = some "NEUTRAL".toList := by
        intro x hx
        rcases List.mem_map.mp hx with ⟨r, hr, rfl⟩
        rcases List.mem_filter.mp hr with ⟨hrS, hre⟩
        have hre2 : r.error = none := by simpa using hre
        exact batch_results_canonical env hc texts language cache r hrS hre2
      have hcount := count_three_partition
        (((batch_results env cache texts language).1.filter
          fun r => r.error = none).map (fun r => r.sentiment))
        (some "POSITIVE".toList) (some "NEGATIVE".toList)
        (some "NEUTRAL".toList) (by decide) (by decide) (by decide) hmem
      rw [List.length_map] at hcount
      exact hcount
  · simp only [batch_statistics]
    by_cases he : ((batch_results env cache texts language).1.filter
        fun r => r.error = none).isEmpty
    · rw [if_pos he]
      simp only [List.isEmpty_iff] at he
      simp [he]
    · rw [if_neg he]
      have he2 : ((batch_results env cache texts language).1.filter
          fun r => r.error = none) ≠ [] := by
        intro hnil
        exact he (by simp [hnil])
      constructor
      · intro hcontra
        cases hcontra
      · intro hzero
        exact absurd (List.length_eq_zero.mp hzero) he2

/-- C2 witness: the batch `["Great!", ""]` under `unitEnv` has total 2,
one successful item, one failed (the empty text), and a sentiment
distribution (1, 0, 0) summing to the successful count. -/
theorem c2_witness :
    (batch_analyze unitEnv ([] : Cache Unit)
      ["Great!".toList, "".toList] "en".toList).2.1.total = 2 ∧
    (batch_analyze unitEnv ([] : Cache Unit)
      ["Great!".toList, "".toList] "en".toList).2.1.successful = 1 ∧
    (batch_analyze unitEnv ([] : Cache Unit)
        ["Great!".toList, "".toList] "en".toList).2.1.successful +
      (batch_analyze unitEnv ([] : Cache Unit)
        ["Great!".toList, "".toList] "en".toList).2.1.failed =
      (batch_analyze unitEnv ([] : Cache Unit)
        ["Great!".toList, "".toList] "en".toList).2.1.total ∧
    1 + 0 + 0 =
      (batch_analyze unitEnv ([] : Cache Unit)
        ["Great!".toList, "".toList] "en".toList).2.1.successful := by
  have hcan : CanonicalInvoke unitEnv.invoke := by
    intro m t label score hinv
    injection hinv with h1
    injection h1 with hl hs
    subst hl
    left
    rfl
  have h := c2_batch_statistics unitEnv ([] : Cache Unit)
    ["Great!".toList, "".toList] "en".toList hcan
    (batch_analyze unitEnv ([] : Cache Unit)
      ["Great!".toList, "".toList] "en".toList).1
    (batch_analyze unitEnv ([] : Cache Unit)
      ["Great!".toList, "".toList] "en".toList).2.1
    (batch_analyze unitEnv ([] : Cache Unit)
      ["Great!".toList, "".toList] "en".toList).2.2 rfl
  refine ⟨h.1, by decide, h.2.2.1, h.2.2.2.1 1 0 0 (by decide)⟩

theorem batch_results_get {M : Type} (env : Env M) (language : List Char) :
    ∀ (texts : List (List Char)) (cache : Cache M) (i : Nat),
      i < texts.length →
      (batch_results env cache texts language).1[i]? =
        some (analyze_sentiment env
          (batch_results env cache (texts.take i) language).2
          (texts.getD i []) language).1 := by
  intro texts
  induction texts with
  | nil => intro cache i hi; simp at hi
  | cons t ts ih =>
    intro cache i hi
    cases i with
    | zero => simp [batch_results]
    | succ n =>
      have hn : n < ts.length := by simpa using hi
      have hrec := ih (analyze_sentiment env cache t language).2 n hn
      simp only [batch_results, List.getElem?_cons_succ, List.take_succ_cons,
        List.getD_cons_succ]
      exact hrec

/-- C5: a batch of at most 100 texts is processed in input order — the
results list has exactly one result per input, and the i-th result is
`analyze_sentiment` applied to the i-th input with the model cache
obtained from processing the first i items — and an exception raised by
the model invocation on one item is caught and surfaced as that item's
error field, the loop never throwing and later items being computed
exactly as `analyze_sentiment` prescribes regardless of earlier failures
(src/app.py lines 226–232 and 130–160). -/
theorem c5_batch_isolation {M : Type} (env : Env M) (cache : Cache M)
    (texts : List (List Char)) (language : List Char)
    (hlen : texts.length ≤ 100) :
    (batch_results env cache texts language).1.length = texts.length ∧
    (∀ i : Nat, i < texts.length →
      (batch_results env cache texts language).1[i]? =
        some (analyze_sentiment env
          (batch_results env cache (texts.take i) language).2
          (texts.getD i []) language).1) ∧
    (∀ (i : Nat) (m : M) (c1 : Cache M) (e : List Char),
      i < texts.length →
      load_model env.loader
        (batch_results env cache (texts.take i) language).2 language =
        (some m, c1) →
      env.invoke m (processed_input env.emojiMap (texts.getD i [])) = .error e →
      (processed_input env.emojiMap (texts.getD i [])).isEmpty = false →
      ((batch_results env cache texts language).1[i]?.map AnalysisResult.error) =
        some (some e)) := by
  refine ⟨batch_results_length env cache texts language,
    fun i hi => batch_results_get env language texts cache i hi, ?_⟩
  intro i m c1 e hi hload hinv hne
  rw [batch_results_get env language texts cache i hi]
  rw [analyze_invoke_error_eq env
    (batch_results env cache (texts.take i) language).2
    (texts.getD i []) language m c1 e hne hload hinv]
  rfl

/-- C5 witness: the two-item batch `["a", "b"]` under a model that always
raises `boom` yields two results and the second result's error is the
exception message. -/
theorem c5_witness :
    (batch_results boomEnv ([] : Cache Unit)
      ["a".toList, "b".toList] "en".toList).1.length = 2 ∧
    ((batch_results boomEnv ([] : Cache Unit)
        ["a".toList, "b".toList] "en".toList).1[1]?.map AnalysisResult.error) =
      some (some "boom".toList) := by
  have h := c5_batch_isolation boomEnv ([] : Cache Unit)
    ["a".toList, "b".toList] "en".toList (by decide)
  exact ⟨h.1, h.2.2 1 () [("en".toList, ())] "boom".toList (by decide) rfl rfl rfl⟩
